import Mathlib

/-!
Shallow embedding of the AI Quiz Generator frontend
(src/frontend/src/services/api.js, src/frontend/src/tabs/GenerateQuizTab.jsx,
src/frontend/src/tabs/HistoryTab.jsx, src/frontend/src/App.jsx,
src/frontend/src/components/QuizDisplay.jsx).

The React components are modelled as explicit state records; each async
handler is split into its synchronous phase (state updates up to the await,
plus the list of HTTP requests it issues) and its resolution phase (the state
update applied when the awaited promise settles). JavaScript string
truthiness is embedded explicitly: a string is falsy exactly when it is the
empty string, and a missing field is an Option that is none.
-/

/-! ## Data model (spec section 3) -/

structure KeyEntities where
  people : List String
  organizations : List String
  locations : List String
deriving DecidableEq

structure QuizQuestion where
  question : String
  options : List String
  answer : String
  difficulty : String
  explanation : String
deriving DecidableEq

structure QuizRecord where
  title : String
  summary : String
  key_entities : KeyEntities
  quiz : List QuizQuestion
  related_topics : List String
deriving DecidableEq

structure HistoryEntry where
  id : String
  title : String
  url : String
  date_generated : String
deriving DecidableEq

/-! ## API client (src/frontend/src/services/api.js)

An HTTP request is recorded as its method, its path relative to the fixed
base URL, and its JSON body (a field list, none for body-less GETs). -/

structure Request where
  method : String
  path : String
  body : Option (List (String × String))
deriving DecidableEq

/-- api.js: generateQuiz posts the url as the single body field. -/
def generateQuiz (url : String) : Request :=
  { method := "POST", path := "/generate_quiz", body := some [("url", url)] }

/-- api.js: getHistory issues a body-less GET. -/
def getHistory : Request :=
  { method := "GET", path := "/history", body := none }

/-- api.js: getQuizById interpolates the id into the path. -/
def getQuizById (quiz_id : String) : Request :=
  { method := "GET", path := "/quiz/" ++ quiz_id, body := none }

/-! ## GenerateQuizTab (src/frontend/src/tabs/GenerateQuizTab.jsx) -/

structure GenState where
  url : String
  loading : Bool
  error : Option String
  quizData : Option QuizRecord
deriving DecidableEq

def initialGenState : GenState :=
  { url := "", loading := false, error := none, quizData := none }

/-- Synchronous phase of handleSubmit: the guard `if (!url)` is true exactly
when url is the empty string (JS string truthiness); otherwise the state is
reset to loading and one generateQuiz request is issued. -/
def handleSubmitSync (s : GenState) : GenState × List Request :=
  if s.url = "" then
    ({ s with error := some "Please enter a Wikipedia URL." }, [])
  else
    ({ s with loading := true, error := none, quizData := none },
     [generateQuiz s.url])

/-- Outcome of the awaited generateQuiz call. On failure, the value of
err.response?.data?.detail is none when any link of the optional chain is
missing, and some d when the response body carries a string detail field d. -/
inductive GenOutcome where
  | success (data : QuizRecord)
  | failure (detail : Option String)

def genericGenerateError : String :=
  "An unknown error occurred. Is the backend server running?"

/-- The displayed message for a failed generate request:
`err.response?.data?.detail || generic`. The JS or-else operator falls back
whenever the left side is falsy, i.e. when the chain is missing or the
detail string is empty. -/
def errorMessageOf (detail : Option String) : String :=
  match detail with
  | some d => if d = "" then genericGenerateError else d
  | none => genericGenerateError

/-- Resolution phase of handleSubmit: success stores the record, failure
stores the extracted message; the finally block clears loading either way. -/
def handleSubmitResolve (s : GenState) (o : GenOutcome) : GenState :=
  match o with
  | .success data => { s with quizData := some data, loading := false }
  | .failure detail =>
      { s with error := some (errorMessageOf detail), loading := false }

/-! ## QuizDisplay (src/frontend/src/components/QuizDisplay.jsx)

For each question, every option is rendered with a highlight flag computed
by `option === q.answer`. -/

def markOptions (q : QuizQuestion) : List (String × Bool) :=
  q.options.map (fun option => (option, decide (option = q.answer)))

/-- Number of options rendered with the answer highlight. -/
def markedCount (q : QuizQuestion) : Nat :=
  (markOptions q).countP (fun p => p.2)

/-! ## HistoryTab (src/frontend/src/tabs/HistoryTab.jsx) -/

structure HistState where
  history : List HistoryEntry
  loading : Bool
  error : Option String
  isModalOpen : Bool
  selectedQuiz : Option QuizRecord
  modalLoading : Bool
deriving DecidableEq

/-- The useState initial values; loading starts true. -/
def initialHistState : HistState :=
  { history := [], loading := true, error := none,
    isModalOpen := false, selectedQuiz := none, modalLoading := false }

/-- Synchronous phase of fetchHistory (run from the mount effect). -/
def fetchHistoryStart (s : HistState) : HistState × List Request :=
  ({ s with loading := true, error := none }, [getHistory])

/-- Resolution of the getHistory call; the finally block clears loading. -/
def fetchHistoryResolve (s : HistState)
    (outcome : Except Unit (List HistoryEntry)) : HistState :=
  match outcome with
  | .ok data => { s with history := data, loading := false }
  | .error _ =>
      { s with error := some "Failed to fetch history.", loading := false }

/-- Synchronous phase of handleDetailsClick: open the modal in its loading
state, clear the held record, and issue one getQuizById request. -/
def handleDetailsClick (s : HistState) (quizId : String) :
    HistState × List Request :=
  ({ s with modalLoading := true, isModalOpen := true, selectedQuiz := none },
   [getQuizById quizId])

/-- Resolution of the getQuizById call: success stores the record, failure
sets the list-track error and closes the modal; the finally block clears
modalLoading either way. -/
def handleDetailsResolve (s : HistState)
    (outcome : Except Unit QuizRecord) : HistState :=
  match outcome with
  | .ok data => { s with selectedQuiz := some data, modalLoading := false }
  | .error _ =>
      { s with error := some "Failed to fetch quiz details.",
               isModalOpen := false, modalLoading := false }

def closeModal (s : HistState) : HistState :=
  { s with isModalOpen := false, selectedQuiz := none }

/-! ### HistoryTab rendering -/

inductive HistRow where
  | placeholder
  | entryRow (e : HistoryEntry)
deriving DecidableEq

/-- The tbody: one placeholder row when the list is empty, otherwise one row
per entry obtained by mapping over the list in order. -/
def historyRows (history : List HistoryEntry) : List HistRow :=
  if history.length = 0 then [HistRow.placeholder]
  else history.map HistRow.entryRow

/-- What the Modal children evaluate to: the conditional loading paragraph
and the conditional QuizDisplay of the held record. -/
structure ModalContent where
  loadingIndicator : Bool
  quiz : Option QuizRecord
deriving DecidableEq

/-- Modelled from the spec: the Modal component itself
(src/frontend/src/components/Modal.jsx) is not part of the provided sources;
spec section 4.5 describes a generic container rendered only when an open
flag is set, holding no data of its own, its content passed in by the
caller. -/
def modalRender (isOpen : Bool) (content : ModalContent) :
    Option ModalContent :=
  if isOpen then some content else none

inductive HistView where
  | loadingView
  | errorView (msg : String)
  | tableView (rows : List HistRow) (modal : Option ModalContent)
deriving DecidableEq

/-- The HistoryTab render function: early return of the loading paragraph,
then early return of the error paragraph, then the table plus the modal. -/
def renderHistoryTab (s : HistState) : HistView :=
  if s.loading then HistView.loadingView
  else
    match s.error with
    | some msg => HistView.errorView msg
    | none =>
        HistView.tableView (historyRows s.history)
          (modalRender s.isModalOpen
            { loadingIndicator := s.modalLoading, quiz := s.selectedQuiz })

/-! ### HistoryTab transition system

The component state together with the number of in-flight detail fetches.
A Details click is only possible while the table is rendered (loading is
false and the error slot is empty), since the button exists only then; a
detail resolution requires an outstanding detail request; the single mount
fetch may resolve at any time. -/

structure HistSystem where
  comp : HistState
  pendingDetail : Nat

def initialHistSystem : HistSystem :=
  { comp := (fetchHistoryStart initialHistState).1, pendingDetail := 0 }

inductive HistStep : HistSystem → HistSystem → Prop where
  | historyDone (s : HistSystem) (outcome : Except Unit (List HistoryEntry)) :
      HistStep s ⟨fetchHistoryResolve s.comp outcome, s.pendingDetail⟩
  | detailsClickStep (s : HistSystem) (quizId : String)
      (hl : s.comp.loading = false) (he : s.comp.error = none) :
      HistStep s ⟨(handleDetailsClick s.comp quizId).1, s.pendingDetail + 1⟩
  | detailsDoneStep (s : HistSystem) (outcome : Except Unit QuizRecord)
      (hp : 0 < s.pendingDetail) :
      HistStep s ⟨handleDetailsResolve s.comp outcome, s.pendingDetail - 1⟩
  | closeModalStep (s : HistSystem) :
      HistStep s ⟨closeModal s.comp, s.pendingDetail⟩

inductive HistReachable : HistSystem → Prop where
  | init : HistReachable initialHistSystem
  | step {s t : HistSystem} :
      HistReachable s → HistStep s t → HistReachable t

/-- Invariant: whenever the error slot is occupied, the list is no longer
loading; and while a detail fetch is outstanding the list is not loading. -/
def HistInv (s : HistSystem) : Prop :=
  (s.comp.error ≠ none → s.comp.loading = false) ∧
  (0 < s.pendingDetail → s.comp.loading = false)

theorem histReachable_inv {s : HistSystem} (h : HistReachable s) :
    HistInv s := by
  induction h with
  | init =>
      constructor
      · intro he
        simp [initialHistSystem, fetchHistoryStart, initialHistState] at he
      · intro hp
        simp [initialHistSystem] at hp
  | step hr hstep ih =>
      cases hstep with
      | historyDone outcome =>
          cases outcome with
          | ok data => exact ⟨fun _ => rfl, fun _ => rfl⟩
          | error e => exact ⟨fun _ => rfl, fun _ => rfl⟩
      | detailsClickStep quizId hl he =>
          exact ⟨fun _ => hl, fun _ => hl⟩
      | detailsDoneStep outcome hp =>
          have hl := ih.2 hp
          cases outcome with
          | ok data => exact ⟨fun _ => hl, fun _ => hl⟩
          | error e => exact ⟨fun _ => hl, fun _ => hl⟩
      | closeModalStep =>
          exact ⟨fun he => ih.1 he, fun hp => ih.2 hp⟩

/-! ## Sample values used by concrete witnesses -/

def sampleQuestion : QuizQuestion :=
  { question := "Who broke the Enigma cipher?",
    options := ["Church", "Turing", "Hilbert"],
    answer := "Turing", difficulty := "easy",
    explanation := "Turing worked at Bletchley Park." }

def sampleRecord : QuizRecord :=
  { title := "Alan Turing", summary := "A mathematician.",
    key_entities :=
      { people := ["Alan Turing"], organizations := ["Bletchley Park"],
        locations := ["England"] },
    quiz := [sampleQuestion], related_topics := ["Enigma"] }

def sampleEntry : HistoryEntry :=
  { id := "1", title := "Alan Turing",
    url := "https://en.wikipedia.org/wiki/Alan_Turing",
    date_generated := "2026-01-01T00:00:00Z" }

/-! ## Counting lemmas for the QuizDisplay highlight -/

theorem countP_mark_of_not_mem (a : String) (l : List String) (h : a ∉ l) :
    (l.map (fun o => (o, decide (o = a)))).countP (fun p => p.2) = 0 := by
  induction l with
  | nil => rfl
  | cons x xs ih =>
      have hax : x ≠ a := fun e => h (by rw [← e]; exact List.mem_cons_self x xs)
      have haxs : a ∉ xs := fun m => h (List.mem_cons.mpr (Or.inr m))
      simp [List.countP_cons, ih haxs, hax]

theorem countP_mark_of_mem (a : String) (l : List String)
    (hnd : l.Nodup) (h : a ∈ l) :
    (l.map (fun o => (o, decide (o = a)))).countP (fun p => p.2) = 1 := by
  induction l with
  | nil => cases h
  | cons x xs ih =>
      rcases List.nodup_cons.mp hnd with ⟨hx, hxs⟩
      rcases List.mem_cons.mp h with heq | hm
      · subst heq
        rw [List.map_cons, List.countP_cons, countP_mark_of_not_mem a xs hx]
        simp
      · have hxa : x ≠ a := fun e => hx (by rw [e]; exact hm)
        simp [List.countP_cons, ih hxs hm, hxa]

/-! ## Claim theorems: Generate tab -/

/-- C2: for a question whose options are unique, QuizDisplay highlights
exactly one option when the answer occurs among the options, every
highlighted option is the answer itself, and no option is highlighted when
the answer does not occur. -/
theorem quizDisplay_marks_unique_answer (q : QuizQuestion)
    (hnd : q.options.Nodup) :
    (q.answer ∈ q.options →
      markedCount q = 1 ∧
      ∀ p ∈ markOptions q, p.2 = true → p.1 = q.answer) ∧
    (q.answer ∉ q.options → markedCount q = 0) := by
  constructor
  · intro hmem
    constructor
    · exact countP_mark_of_mem q.answer q.options hnd hmem
    · intro p hp hmark
      rcases List.mem_map.mp hp with ⟨o, _, rfl⟩
      exact of_decide_eq_true hmark
  · intro hnot
    exact countP_mark_of_not_mem q.answer q.options hnot

theorem quizDisplay_marks_unique_answer_witness :
    sampleQuestion.options.Nodup ∧
    ((sampleQuestion.answer ∈ sampleQuestion.options →
        markedCount sampleQuestion = 1 ∧
        ∀ p ∈ markOptions sampleQuestion,
          p.2 = true → p.1 = sampleQuestion.answer) ∧
      (sampleQuestion.answer ∉ sampleQuestion.options →
        markedCount sampleQuestion = 0)) :=
  ⟨by decide, quizDisplay_marks_unique_answer sampleQuestion (by decide)⟩

def blankUrlState : GenState :=
  { url := " ", loading := false, error := none, quizData := none }

/-- C1 counterexample: a whitespace-only url is truthy in JS, so submitting
it issues a network request and does not display the validation message; the
claim fails for blank non-empty input. -/
theorem blank_url_issues_request :
    ¬((handleSubmitSync blankUrlState).2 = [] ∧
      (handleSubmitSync blankUrlState).1.error =
        some "Please enter a Wikipedia URL.") := by decide

/-- C1 (amended): submitting with the url input equal to the empty string
issues no network request and displays the validation message. -/
theorem empty_url_no_request (s : GenState) (h : s.url = "") :
    (handleSubmitSync s).2 = [] ∧
    (handleSubmitSync s).1.error = some "Please enter a Wikipedia URL." := by
  simp [handleSubmitSync, h]

theorem empty_url_no_request_witness :
    initialGenState.url = "" ∧
    ((handleSubmitSync initialGenState).2 = [] ∧
      (handleSubmitSync initialGenState).1.error =
        some "Please enter a Wikipedia URL.") :=
  ⟨rfl, empty_url_no_request initialGenState rfl⟩

/-- C9: an empty-url submission only sets the error message; the loading
flag, the held quiz record and the url input are all left unchanged, so a
previously generated quiz stays displayed alongside the validation error. -/
theorem empty_url_frame (s : GenState) (h : s.url = "") :
    (handleSubmitSync s).1.loading = s.loading ∧
    (handleSubmitSync s).1.quizData = s.quizData ∧
    (handleSubmitSync s).1.url = s.url ∧
    (handleSubmitSync s).1.error = some "Please enter a Wikipedia URL." := by
  simp [handleSubmitSync, h]

def generatedGenState : GenState :=
  { url := "", loading := false, error := none, quizData := some sampleRecord }

theorem empty_url_frame_witness :
    generatedGenState.url = "" ∧
    ((handleSubmitSync generatedGenState).1.loading =
        generatedGenState.loading ∧
      (handleSubmitSync generatedGenState).1.quizData =
        generatedGenState.quizData ∧
      (handleSubmitSync generatedGenState).1.url = generatedGenState.url ∧
      (handleSubmitSync generatedGenState).1.error =
        some "Please enter a Wikipedia URL.") :=
  ⟨rfl, empty_url_frame generatedGenState rfl⟩

/-- C3: a submission with a non-empty url issues exactly one POST request to
the generate_quiz path whose JSON body consists of the single field url
bound to the submitted value. -/
theorem nonempty_url_single_post (s : GenState) (h : s.url ≠ "") :
    (handleSubmitSync s).2 =
      [{ method := "POST", path := "/generate_quiz",
         body := some [("url", s.url)] }] := by
  simp [handleSubmitSync, h, generateQuiz]

def turingGenState : GenState :=
  { url := "https://en.wikipedia.org/wiki/Alan_Turing", loading := false,
    error := none, quizData := none }

theorem nonempty_url_single_post_witness :
    turingGenState.url ≠ "" ∧
    (handleSubmitSync turingGenState).2 =
      [{ method := "POST", path := "/generate_quiz",
         body := some [("url", turingGenState.url)] }] :=
  ⟨by decide, nonempty_url_single_post turingGenState (by decide)⟩

def staleResultState : GenState :=
  { url := "", loading := false, error := some "old error",
    quizData := some sampleRecord }

/-- C8 counterexample: submitting from a state whose url input is empty does
not reset the component: loading stays false and the previously held record
is kept, contradicting the claim for that state. -/
theorem resubmit_no_reset_on_empty :
    ¬((handleSubmitSync staleResultState).1.loading = true ∧
      (handleSubmitSync staleResultState).1.error = none ∧
      (handleSubmitSync staleResultState).1.quizData = none) := by decide

/-- C8 (amended): a re-submission with a non-empty url resets the component
from any state: afterwards loading is true and both the held record and the
held error are cleared. -/
theorem resubmit_resets (s : GenState) (h : s.url ≠ "") :
    (handleSubmitSync s).1.loading = true ∧
    (handleSubmitSync s).1.error = none ∧
    (handleSubmitSync s).1.quizData = none := by
  simp [handleSubmitSync, h]

def retryGenState : GenState :=
  { url := "https://en.wikipedia.org/wiki/Enigma", loading := false,
    error := some "old error", quizData := some sampleRecord }

theorem resubmit_resets_witness :
    retryGenState.url ≠ "" ∧
    ((handleSubmitSync retryGenState).1.loading = true ∧
      (handleSubmitSync retryGenState).1.error = none ∧
      (handleSubmitSync retryGenState).1.quizData = none) :=
  ⟨by decide, resubmit_resets retryGenState (by decide)⟩

def loadingGenState : GenState :=
  { url := "https://en.wikipedia.org/wiki/Alan_Turing", loading := true,
    error := none, quizData := none }

/-- C7 counterexample: when the failure response carries a detail field that
is present but empty, the JS or-else falls back to the generic message, so
the displayed error is not the detail value. -/
theorem empty_detail_not_displayed :
    (handleSubmitResolve loadingGenState
        (GenOutcome.failure (some ""))).error ≠ some "" := by decide

/-- C7 (amended): a failed generate request displays the detail field of the
response body whenever that field is present and non-empty, and displays the
fixed generic fallback when the field is absent or empty. -/
theorem generate_failure_message (s : GenState) (d : String) (hd : d ≠ "") :
    (handleSubmitResolve s (GenOutcome.failure (some d))).error = some d ∧
    (handleSubmitResolve s (GenOutcome.failure none)).error =
      some genericGenerateError ∧
    (handleSubmitResolve s (GenOutcome.failure (some ""))).error =
      some genericGenerateError := by
  refine ⟨?_, rfl, rfl⟩
  simp [handleSubmitResolve, errorMessageOf, hd]

theorem generate_failure_message_witness :
    ("scrape failed" : String) ≠ "" ∧
    ((handleSubmitResolve loadingGenState
        (GenOutcome.failure (some "scrape failed"))).error =
        some "scrape failed" ∧
      (handleSubmitResolve loadingGenState (GenOutcome.failure none)).error =
        some genericGenerateError ∧
      (handleSubmitResolve loadingGenState
          (GenOutcome.failure (some ""))).error =
        some genericGenerateError) :=
  ⟨by decide,
   generate_failure_message loadingGenState "scrape failed" (by decide)⟩

/-! ## Claim theorems: History tab -/

/-- C4: from any component state, clicking the Details action for an id
opens the modal immediately in its loading state (modal open, loading
indicator on, no detail record held) and issues exactly one GET request to
the quiz path for that id; since this holds for every state, reopening the
same id after closing re-fetches rather than using any cache. -/
theorem details_click_opens_loading_and_fetches (s : HistState)
    (quizId : String) :
    (handleDetailsClick s quizId).1.isModalOpen = true ∧
    (handleDetailsClick s quizId).1.modalLoading = true ∧
    (handleDetailsClick s quizId).1.selectedQuiz = none ∧
    (handleDetailsClick s quizId).2 =
      [{ method := "GET", path := "/quiz/" ++ quizId, body := none }] := by
  exact ⟨rfl, rfl, rfl, rfl⟩

/-- C5: a failed detail fetch closes the modal and writes its message into
the list-track error slot; a successful detail fetch, from a state where the
modal is open and the list is loaded without error, renders the table with
the fetched record displayed inside the open modal. -/
theorem details_resolve_renders_or_errors (s : HistState) (data : QuizRecord)
    (hm : s.isModalOpen = true) (hl : s.loading = false)
    (he : s.error = none) :
    ((handleDetailsResolve s (Except.error ())).isModalOpen = false ∧
      (handleDetailsResolve s (Except.error ())).error =
        some "Failed to fetch quiz details.") ∧
    renderHistoryTab (handleDetailsResolve s (Except.ok data)) =
      HistView.tableView (historyRows s.history)
        (some { loadingIndicator := false, quiz := some data }) := by
  refine ⟨⟨rfl, rfl⟩, ?_⟩
  simp [handleDetailsResolve, renderHistoryTab, hl, he, hm, modalRender]

def openModalHistState : HistState :=
  { history := [sampleEntry], loading := false, error := none,
    isModalOpen := true, selectedQuiz := none, modalLoading := true }

theorem details_resolve_renders_or_errors_witness :
    (openModalHistState.isModalOpen = true ∧
      openModalHistState.loading = false ∧
      openModalHistState.error = none) ∧
    (((handleDetailsResolve openModalHistState
          (Except.error ())).isModalOpen = false ∧
       (handleDetailsResolve openModalHistState (Except.error ())).error =
         some "Failed to fetch quiz details.") ∧
      renderHistoryTab
          (handleDetailsResolve openModalHistState (Except.ok sampleRecord)) =
        HistView.tableView (historyRows openModalHistState.history)
          (some { loadingIndicator := false, quiz := some sampleRecord })) :=
  ⟨⟨rfl, rfl, rfl⟩,
   details_resolve_renders_or_errors openModalHistState sampleRecord
     rfl rfl rfl⟩

/-- C6: when the history fetch resolves with a backend sequence, the tab
renders the table whose rows are exactly one row per entry, obtained by
mapping in the backend order with no sort, and a single placeholder row when
the sequence is empty. -/
theorem history_list_renders_rows (s : HistState)
    (data : List HistoryEntry) (he : s.error = none) :
    renderHistoryTab (fetchHistoryResolve s (Except.ok data)) =
      HistView.tableView (historyRows data)
        (modalRender s.isModalOpen
          { loadingIndicator := s.modalLoading, quiz := s.selectedQuiz }) ∧
    (data = [] → historyRows data = [HistRow.placeholder]) ∧
    (data ≠ [] → historyRows data = data.map HistRow.entryRow ∧
      (historyRows data).length = data.length) := by
  refine ⟨?_, ?_, ?_⟩
  · simp [fetchHistoryResolve, renderHistoryTab, he]
  · intro hd
    simp [historyRows, hd]
  · intro hd
    have hlen : data.length ≠ 0 := fun h0 => hd (List.length_eq_zero.mp h0)
    constructor
    · simp [historyRows, hlen]
    · simp [historyRows, hlen]

theorem history_list_renders_rows_witness :
    initialHistState.error = none ∧
    (renderHistoryTab
        (fetchHistoryResolve initialHistState (Except.ok [sampleEntry])) =
      HistView.tableView (historyRows [sampleEntry])
        (modalRender initialHistState.isModalOpen
          { loadingIndicator := initialHistState.modalLoading,
            quiz := initialHistState.selectedQuiz }) ∧
    ([sampleEntry] = ([] : List HistoryEntry) →
      historyRows [sampleEntry] = [HistRow.placeholder]) ∧
    ([sampleEntry] ≠ ([] : List HistoryEntry) →
      historyRows [sampleEntry] = [sampleEntry].map HistRow.entryRow ∧
      (historyRows [sampleEntry]).length =
        ([sampleEntry] : List HistoryEntry).length)) :=
  ⟨rfl, history_list_renders_rows initialHistState [sampleEntry] rfl⟩

/-- C10: in every reachable configuration of the History tab whose error
slot is occupied, the render function returns only the error paragraph: the
constructor carries no table rows and no modal, so the history list and the
modal are absent from view. -/
theorem error_slot_renders_only_error (s : HistSystem) (msg : String)
    (hr : HistReachable s) (he : s.comp.error = some msg) :
    renderHistoryTab s.comp = HistView.errorView msg := by
  have hl : s.comp.loading = false :=
    (histReachable_inv hr).1 (by simp [he])
  simp [renderHistoryTab, hl, he]

def loadedHistSystem : HistSystem :=
  ⟨fetchHistoryResolve initialHistSystem.comp (Except.ok [sampleEntry]),
   initialHistSystem.pendingDetail⟩

def clickedHistSystem : HistSystem :=
  ⟨(handleDetailsClick loadedHistSystem.comp "1").1,
   loadedHistSystem.pendingDetail + 1⟩

def detailFailedHistSystem : HistSystem :=
  ⟨handleDetailsResolve clickedHistSystem.comp (Except.error ()),
   clickedHistSystem.pendingDetail - 1⟩

theorem error_slot_renders_only_error_witness :
    HistReachable detailFailedHistSystem ∧
    detailFailedHistSystem.comp.error = some "Failed to fetch quiz details." ∧
    renderHistoryTab detailFailedHistSystem.comp =
      HistView.errorView "Failed to fetch quiz details." := by
  have h1 : HistReachable loadedHistSystem :=
    HistReachable.step HistReachable.init
      (HistStep.historyDone initialHistSystem (Except.ok [sampleEntry]))
  have h2 : HistReachable clickedHistSystem :=
    HistReachable.step h1
      (HistStep.detailsClickStep loadedHistSystem "1" rfl rfl)
  have h3 : HistReachable detailFailedHistSystem :=
    HistReachable.step h2
      (HistStep.detailsDoneStep clickedHistSystem (Except.error ())
        (by decide))
  exact ⟨h3, rfl,
    error_slot_renders_only_error detailFailedHistSystem
      "Failed to fetch quiz details." h3 rfl⟩
